import Mathlib

/-!
Verification of the Catchment Metric & Scoring Engine (streamlit_app.py).

This file shallowly embeds the engine logic of the repository source:

* `load_clinics`        — src lines 31-41 (point construction, projection, buffering)
* `extract_osm_metrics` — src lines 43-64 (per-clinic metric record assembly)
* `all_metrics`         — src line 86 (concatenation over the radii 3, 5, 6)
* `compute_scores`      — src lines 66-75 (min-max normalization, weighting, rank)

Modelling conventions:

* Machine floats are modelled by exact rationals (ℚ).  IEEE NaN, which pandas
  produces from the 0/0 division in the normalization and skips in min, max and
  sum, is modelled by `Option ℚ` with `none` standing for NaN.
* The external libraries (geopandas/shapely reprojection and buffering, the
  osmnx feature queries) are not repository code.  Their results enter the
  embedding as parameters: a query adapter `Clinic → Nat → QueryResults` and an
  area adapter `Clinic → Nat → ℚ`.  The coordinate-frame bookkeeping that the
  source performs with to_crs is embedded symbolically by `GeomExpr`.
* A Python exception (ZeroDivisionError on float division by zero) is modelled
  by `Option`: `none` means the call raised and no value was produced.
-/

set_option autoImplicit false

/-- Coordinate reference systems appearing in the source: EPSG:4326 is the
geographic (lat/lon) frame, EPSG:3857 the projected (metric) frame. -/
inductive CRS where
  | epsg4326
  | epsg3857
  deriving DecidableEq

/-- Symbolic geometry expressions tracking how a polygon was produced and
which coordinate frame it currently lives in.  `point` is a raw lat/lon point
(src line 35, built in EPSG:4326), `to_crs` is a reprojection
(geopandas to_crs), `buffer` is a circular buffer in the current frame
(src line 40). -/
inductive GeomExpr where
  | point (lat long : ℚ)
  | to_crs (target : CRS) (g : GeomExpr)
  | buffer (g : GeomExpr) (meters : ℚ)
  deriving DecidableEq

/-- The coordinate frame a geometry expression currently lives in. -/
def frameOf : GeomExpr → CRS
  | .point _ _ => .epsg4326
  | .to_crs t _ => t
  | .buffer g _ => frameOf g

/-- Whether the expression was, at any point of its history, reprojected into
the geographic frame (EPSG:4326) by an explicit to_crs call. -/
def reprojectedToGeographic : GeomExpr → Bool
  | .point _ _ => false
  | .to_crs t g => t = CRS.epsg4326 || reprojectedToGeographic g
  | .buffer g _ => reprojectedToGeographic g

/-- One row of the uploaded clinic CSV: columns name, lat, long
(src lines 33-35). -/
structure Clinic where
  name : String
  lat : ℚ
  long : ℚ
  deriving DecidableEq

/-- The point geometry of a clinic as built on src line 35, in EPSG:4326. -/
def clinicPoint (c : Clinic) : GeomExpr := .point c.lat c.long

/-- The buffer polygon of src lines 37-40: the point is projected to
EPSG:3857 and buffered by the radius in meters, in the projected frame. -/
def bufferGeom (c : Clinic) (meters : ℚ) : GeomExpr :=
  .buffer (.to_crs .epsg3857 (clinicPoint c)) meters

/-- Embedding of load_clinics (src lines 31-41): every CSV row is turned into
a point, projected, and given one buffer per configured radius
(3000, 5000, 6000 meters, labelled by meters // 1000).  The source performs no
coordinate validation of any kind. -/
def load_clinics (rows : List Clinic) : List (Clinic × List (Nat × GeomExpr)) :=
  rows.map (fun r =>
    (r, [3000, 5000, 6000].map (fun m => (m / 1000, bufferGeom r (m : ℚ)))))

/-- The polygon handed to every osmnx feature query (src line 47): the stored
projected buffer reprojected to the geographic frame EPSG:4326. -/
def queryPoly (c : Clinic) (meters : ℚ) : GeomExpr :=
  .to_crs .epsg4326 (bufferGeom c meters)

/-- The polygon whose .area the source takes on src line 52: the geographic
query polygon reprojected back to EPSG:3857. -/
def areaArg (c : Clinic) (meters : ℚ) : GeomExpr :=
  .to_crs .epsg3857 (queryPoly c meters)

/-- Results of the five external osmnx queries for one clinic at one radius
(src lines 48-54): feature counts and the list of road edge lengths in
meters. -/
structure QueryResults where
  buildings : Nat
  competitors : Nat
  roadLengthsM : List ℚ
  playschools : Nat
  public_transport : Nat
  deriving DecidableEq

/-- One metric record as assembled on src lines 55-63.  road_density is
`Option ℚ` so that the spec-side notion of a null value is expressible; the
source always stores the plain quotient. -/
structure Row where
  clinic : String
  radius_km : Nat
  buildings : ℚ
  competitors : ℚ
  road_density : Option ℚ
  playschools : ℚ
  public_transport : ℚ
  deriving DecidableEq

/-- The record the loop body of src lines 46-63 builds when the division
succeeds: counts are copied, road_density is the quotient
(sum of edge lengths / 1000) / area. -/
def recordRaw (nm : String) (km : Nat) (q : QueryResults) (a : ℚ) : Row :=
  { clinic := nm
    radius_km := km
    buildings := q.buildings
    competitors := q.competitors
    road_density := some (q.roadLengthsM.sum / 1000 / a)
    playschools := q.playschools
    public_transport := q.public_transport }

/-- The loop body of src lines 46-63 including its failure mode: Python float
division raises ZeroDivisionError when area_km2 is exactly 0, in which case no
record is produced (`none`); otherwise the quotient is stored unconditionally,
also for negative areas. -/
def mkRecord (nm : String) (km : Nat) (q : QueryResults) (a : ℚ) : Option Row :=
  if a = 0 then none else some (recordRaw nm km q a)

/-- Embedding of extract_osm_metrics (src lines 43-64): iterate the clinics in
input order, query the adapters, and build one record per clinic for the given
radius label; an exception in any iteration aborts the whole call. -/
def extract_osm_metrics (clinics : List Clinic) (km : Nat)
    (qf : Clinic → Nat → QueryResults) (af : Clinic → Nat → ℚ) : Option (List Row) :=
  match clinics with
  | [] => some []
  | c :: rest =>
    match mkRecord c.name km (qf c km) (af c km), extract_osm_metrics rest km qf af with
    | some r, some rs => some (r :: rs)
    | _, _ => none

/-- Embedding of src line 86: the metric tables of the three radii 3, 5, 6 are
concatenated into one table (pd.concat with ignore_index). -/
def all_metrics (clinics : List Clinic) (qf : Clinic → Nat → QueryResults)
    (af : Clinic → Nat → ℚ) : Option (List Row) :=
  match extract_osm_metrics clinics 3 qf af, extract_osm_metrics clinics 5 qf af,
      extract_osm_metrics clinics 6 qf af with
  | some a, some b, some c => some (a ++ b ++ c)
  | _, _, _ => none

/-- The five scored metric columns, in the iteration order of the weights
dict on src line 68. -/
inductive Metric where
  | buildings
  | competitors
  | road_density
  | playschools
  | public_transport
  deriving DecidableEq

/-- The weights dict of src line 68. -/
def weight : Metric → ℚ
  | .buildings => 2/10
  | .competitors => -3/10
  | .road_density => 2/10
  | .playschools => 1/10
  | .public_transport => 2/10

/-- Iteration order of the weights dict (Python dict insertion order). -/
def metricList : List Metric :=
  [.buildings, .competitors, .road_density, .playschools, .public_transport]

/-- Raw value of a metric column in a row; `none` models NaN. -/
def getMetric (r : Row) : Metric → Option ℚ
  | .buildings => some r.buildings
  | .competitors => some r.competitors
  | .road_density => r.road_density
  | .playschools => some r.playschools
  | .public_transport => some r.public_transport

/-- Column minimum as pandas computes it on src line 71: NaN values are
skipped; the minimum of an all-NaN or empty column is NaN. -/
def colMin (rows : List Row) (m : Metric) : Option ℚ :=
  (rows.filterMap (fun r => getMetric r m)).min?

/-- Column maximum as pandas computes it on src line 71 (NaN skipped). -/
def colMax (rows : List Row) (m : Metric) : Option ℚ :=
  (rows.filterMap (fun r => getMetric r m)).max?

/-- The min-max normalization of src line 71 under IEEE semantics: a NaN
input or NaN bound gives NaN, and when max = min the numerator and denominator
are both 0, so the 0/0 division gives NaN. -/
def normVal (v lo hi : Option ℚ) : Option ℚ :=
  match v, lo, hi with
  | some x, some l, some h => if h = l then none else some ((x - l) / (h - l))
  | _, _, _ => none

/-- The weighted sub-score column of src line 72: norm * weight, with NaN
propagating through the product. -/
def subScore (rows : List Row) (r : Row) (m : Metric) : Option ℚ :=
  (normVal (getMetric r m) (colMin rows m) (colMax rows m)).map (fun x => x * weight m)

/-- The total_score of src line 73: the row-wise sum over the five sub-score
columns with pandas default skipna, so NaN entries contribute nothing. -/
def totalScore (rows : List Row) (r : Row) : ℚ :=
  (metricList.filterMap (subScore rows r)).sum

/-- The rank of src line 74: pandas Series.rank with ascending=False and the
default method, which assigns each row the average of the ordinal positions
its ties would occupy: (count of strictly greater totals) +
(1 + count of equal totals) / 2. -/
def rankOf (totals : List ℚ) (s : ℚ) : ℚ :=
  ((totals.countP (fun t => decide (s < t)) : ℕ) : ℚ)
    + (1 + ((totals.countP (fun t => decide (t = s)) : ℕ) : ℚ)) / 2

/-- One row of the output table of compute_scores: the input row plus the five
sub-score columns, total_score and rank. -/
structure ScoredRow where
  raw : Row
  buildings_score : Option ℚ
  competitors_score : Option ℚ
  road_density_score : Option ℚ
  playschools_score : Option ℚ
  public_transport_score : Option ℚ
  total_score : ℚ
  rank : ℚ
  deriving DecidableEq

/-- The output row built for one input row. -/
def mkScored (rows : List Row) (totals : List ℚ) (r : Row) : ScoredRow :=
  { raw := r
    buildings_score := subScore rows r .buildings
    competitors_score := subScore rows r .competitors
    road_density_score := subScore rows r .road_density
    playschools_score := subScore rows r .playschools
    public_transport_score := subScore rows r .public_transport
    total_score := totalScore rows r
    rank := rankOf totals (totalScore rows r) }

/-- Embedding of compute_scores (src lines 66-75): the input table is copied,
every metric column is min-max normalized over the whole input table and
multiplied by its weight, the sub-scores are summed row-wise, and ranks are
assigned over the whole table. -/
def compute_scores (rows : List Row) : List ScoredRow :=
  rows.map (mkScored rows (rows.map (totalScore rows)))

/-- Accessor for the sub-score column of a metric in an output row. -/
def scoreOf (s : ScoredRow) : Metric → Option ℚ
  | .buildings => s.buildings_score
  | .competitors => s.competitors_score
  | .road_density => s.road_density_score
  | .playschools => s.playschools_score
  | .public_transport => s.public_transport_score

/-! Model of the external geometry backend.  Buffer polygons are disk
approximations whose area in square meters is a fixed positive multiple of the
squared radius (π r² for the ideal disk, (n/2) sin(2π/n) r² for the n-gon
approximation shapely produces); the coefficient is kept as a parameter c. -/

/-- Area in square meters of a buffer polygon of the given radius, for a
positive shape coefficient c (π for the ideal disk). -/
def bufferAreaM2 (c : ℚ) (meters : ℚ) : ℚ := c * meters * meters

/-- The area_km2 value of src line 52 for a radius label in kilometers: the
projected buffer area in square meters divided by 10^6. -/
def area_km2_model (c : ℚ) (km : Nat) : ℚ :=
  bufferAreaM2 c (1000 * (km : ℚ)) / 1000000

/-! Concrete inputs used by counterexamples and witnesses. -/

/-- A single-clinic input list. -/
def cEx : List Clinic := [{ name := "a", lat := 1, long := 2 }]

/-- Query adapter whose building count grows with the radius label. -/
def qEx : Clinic → Nat → QueryResults :=
  fun _ k => { buildings := 10 * k, competitors := 0, roadLengthsM := [],
               playschools := 0, public_transport := 0 }

/-- Area adapter returning the constant area 1. -/
def aEx : Clinic → Nat → ℚ := fun _ _ => 1

/-- The metric table the pipeline produces from cEx, qEx, aEx: one record per
radius label 3, 5, 6, with building counts 30, 50, 60. -/
def msEx : List Row :=
  [{ clinic := "a", radius_km := 3, buildings := 30, competitors := 0,
     road_density := some 0, playschools := 0, public_transport := 0 },
   { clinic := "a", radius_km := 5, buildings := 50, competitors := 0,
     road_density := some 0, playschools := 0, public_transport := 0 },
   { clinic := "a", radius_km := 6, buildings := 60, competitors := 0,
     road_density := some 0, playschools := 0, public_transport := 0 }]

/-- The scored row the pipeline produces for the radius-3 record of msEx. -/
def s1 : ScoredRow :=
  { raw := { clinic := "a", radius_km := 3, buildings := 30, competitors := 0,
             road_density := some 0, playschools := 0, public_transport := 0 }
    buildings_score := some 0
    competitors_score := none
    road_density_score := none
    playschools_score := none
    public_transport_score := none
    total_score := 0
    rank := 3 }

/-- A single metric row used to build a two-row table of exact duplicates. -/
def rA : Row :=
  { clinic := "a", radius_km := 3, buildings := 1, competitors := 2,
    road_density := some 3, playschools := 4, public_transport := 5 }

/-- Two identical rows: every metric column is degenerate (max = min) and the
two total scores tie exactly. -/
def rows2 : List Row := [rA, rA]

/-- The scored row compute_scores produces for each element of rows2: every
sub-score is NaN, the total is 0 and the tied pandas average rank is 3/2. -/
def s2 : ScoredRow :=
  { raw := rA
    buildings_score := none
    competitors_score := none
    road_density_score := none
    playschools_score := none
    public_transport_score := none
    total_score := 0
    rank := 3/2 }

/-- Query results with a single 1000 m road edge and no features. -/
def q0 : QueryResults :=
  { buildings := 0, competitors := 0, roadLengthsM := [1000],
    playschools := 0, public_transport := 0 }

/-- The record the extractor builds from q0 at the negative area -1: the
road_density slot holds the quotient -1, not null. -/
def rowNeg : Row :=
  { clinic := "c", radius_km := 3, buildings := 0, competitors := 0,
    road_density := some (-1), playschools := 0, public_transport := 0 }

/-- A clinic whose latitude 200 is far outside the valid range [-90, 90]. -/
def badClinic : Clinic := { name := "x", lat := 200, long := 0 }

/-- A single clinic used by the coordinate-frame counterexample. -/
def cl0 : Clinic := { name := "x", lat := 1, long := 2 }

/-- The record the extractor builds for a clinic at a radius label when the
adapters succeed: recordRaw applied to the clinic name and the adapter
outputs. -/
def recordOf (qf : Clinic → Nat → QueryResults) (af : Clinic → Nat → ℚ)
    (km : Nat) (c : Clinic) : Row :=
  recordRaw c.name km (qf c km) (af c km)

/-- The scored row the pipeline produces for the radius-5 record of msEx. -/
def s5 : ScoredRow :=
  { raw := { clinic := "a", radius_km := 5, buildings := 50, competitors := 0,
             road_density := some 0, playschools := 0, public_transport := 0 }
    buildings_score := some (2/15)
    competitors_score := none
    road_density_score := none
    playschools_score := none
    public_transport_score := none
    total_score := 2/15
    rank := 2 }

/-- The scored row the pipeline produces for the radius-6 record of msEx. -/
def s6 : ScoredRow :=
  { raw := { clinic := "a", radius_km := 6, buildings := 60, competitors := 0,
             road_density := some 0, playschools := 0, public_transport := 0 }
    buildings_score := some (1/5)
    competitors_score := none
    road_density_score := none
    playschools_score := none
    public_transport_score := none
    total_score := 1/5
    rank := 1 }

/-! Helper lemmas shared by the claim theorems. -/

/-- The sub-score accessor on a built output row gives the sub-score of the
corresponding metric. -/
theorem scoreOf_mkScored (rows : List Row) (ts : List ℚ) (r : Row) (m : Metric) :
    scoreOf (mkScored rows ts r) m = subScore rows r m := by
  cases m <;> rfl

/-- Mapping a list of rows through mkScored and projecting back the raw row
is the identity. -/
theorem map_raw_mkScored (rows : List Row) (ts : List ℚ) :
    ∀ l : List Row, (l.map (mkScored rows ts)).map (fun s => s.raw) = l := by
  intro l
  induction l with
  | nil => rfl
  | cons a t ih => simp [List.map_cons, ih, mkScored]

/-- compute_scores keeps every input row unchanged in the raw component of
its output row, in order. -/
theorem compute_scores_map_raw (rows : List Row) :
    (compute_scores rows).map (fun s => s.raw) = rows :=
  map_raw_mkScored rows (rows.map (totalScore rows)) rows

/-- A successful mkRecord call pins the radius label, the clinic name and the
whole record. -/
theorem mkRecord_some (nm : String) (km : Nat) (q : QueryResults) (a : ℚ) (r : Row)
    (h : mkRecord nm km q a = some r) : r = recordRaw nm km q a ∧ a ≠ 0 := by
  unfold mkRecord at h
  by_cases ha : a = 0
  · rw [if_pos ha] at h
    exact absurd h (by simp)
  · rw [if_neg ha] at h
    exact ⟨(Option.some_injective _ h).symm, ha⟩

/-- When every area is nonzero, the extractor succeeds and returns exactly one
record per clinic, in input order. -/
theorem extract_eq (qf : Clinic → Nat → QueryResults) (af : Clinic → Nat → ℚ)
    (h : ∀ c k, af c k ≠ 0) (km : Nat) :
    ∀ clinics, extract_osm_metrics clinics km qf af
      = some (clinics.map (recordOf qf af km)) := by
  intro clinics
  induction clinics with
  | nil => rfl
  | cons c t ih =>
    simp [extract_osm_metrics, ih, mkRecord, if_neg (h c km), recordOf]

/-- A successful extractor call returns one record per clinic and stamps every
record with the requested radius label. -/
theorem extract_labels (qf : Clinic → Nat → QueryResults) (af : Clinic → Nat → ℚ)
    (km : Nat) : ∀ clinics l, extract_osm_metrics clinics km qf af = some l →
      l.length = clinics.length ∧ ∀ r ∈ l, r.radius_km = km := by
  intro clinics
  induction clinics with
  | nil =>
    intro l hl
    simp only [extract_osm_metrics] at hl
    obtain rfl : ([] : List Row) = l := Option.some_injective _ hl
    simp
  | cons c t ih =>
    intro l hl
    simp only [extract_osm_metrics] at hl
    cases hm : mkRecord c.name km (qf c km) (af c km) with
    | none => rw [hm] at hl; simp at hl
    | some r =>
      cases hrest : extract_osm_metrics t km qf af with
      | none => rw [hm, hrest] at hl; simp at hl
      | some rs =>
        rw [hm, hrest] at hl
        obtain rfl : r :: rs = l := Option.some_injective _ hl
        obtain ⟨hlen, hlab⟩ := ih rs hrest
        obtain ⟨rfl, -⟩ := mkRecord_some _ _ _ _ _ hm
        refine ⟨by simp [hlen], ?_⟩
        intro x hx
        rcases List.mem_cons.mp hx with rfl | hx2
        · rfl
        · exact hlab x hx2

/-- Removing from the metric iteration order one metric whose sub-score is
NaN does not change the filterMap over sub-scores. -/
theorem filterMap_filter_ne (f : Metric → Option ℚ) (m : Metric) (hm : f m = none) :
    ∀ l : List Metric, ((l.filter (fun x => decide (x ≠ m))).filterMap f) = l.filterMap f := by
  intro l
  induction l with
  | nil => rfl
  | cons a t ih =>
    simp only [ne_eq, decide_not] at ih ⊢
    rw [List.filter_cons]
    by_cases ha : a = m
    · subst ha
      rw [if_neg (by simp), List.filterMap_cons, hm]
      exact ih
    · rw [if_pos (by simp [ha]), List.filterMap_cons, List.filterMap_cons]
      cases hfa : f a <;> simp [hfa, ih]

/-- When a metric column is degenerate (max = min), its sub-score is NaN for
every row. -/
theorem subScore_degenerate (rows : List Row) (m : Metric)
    (hdeg : colMax rows m = colMin rows m) (r : Row) : subScore rows r m = none := by
  simp only [subScore, hdeg]
  cases hv : getMetric r m <;> cases hl : colMin rows m <;> simp [normVal, hv, hl]

/-- Evaluation of the pipeline on the concrete single-clinic input: one record
per radius with building counts 30, 50, 60. -/
theorem eval_all_metrics : all_metrics cEx qEx aEx = some msEx := by
  norm_num [all_metrics, extract_osm_metrics, mkRecord, recordRaw, qEx, aEx, cEx, msEx]

/-- Evaluation of the scorer on the concrete three-radius table msEx. -/
theorem eval_scores_msEx : compute_scores msEx = [s1, s5, s6] := by
  norm_num [compute_scores, mkScored, subScore, normVal, colMin, colMax, getMetric,
    metricList, totalScore, rankOf, weight, msEx, s1, s5, s6, List.min?, List.max?,
    min_def, max_def, List.countP_cons, List.countP_nil,
    List.filterMap_cons, List.filterMap_nil, List.foldl_cons, List.foldl_nil,
    List.sum_cons, List.sum_nil, List.map_cons, List.map_nil]

/-- Evaluation of the scorer on the two-row duplicate table rows2. -/
theorem eval_scores_rows2 : compute_scores rows2 = [s2, s2] := by
  norm_num [compute_scores, mkScored, subScore, normVal, colMin, colMax, getMetric,
    metricList, totalScore, rankOf, weight, rows2, rA, s2, List.min?, List.max?,
    min_def, max_def, List.countP_cons, List.countP_nil,
    List.filterMap_cons, List.filterMap_nil, List.foldl_cons, List.foldl_nil,
    List.sum_cons, List.sum_nil, List.map_cons, List.map_nil]

/-! Claim theorems. -/

/-- C1 counterexample: the pipeline of src lines 86-87 feeds compute_scores
the concatenation of the tables of all three radii, so for the concrete
single-clinic input with building counts 30/50/60 across radii, the
sub-score of the radius-3 record is computed with the max taken from the
radius-6 record: it is 0, whereas normalizing only within the radius-3 group
would give NaN (none).  This refutes the claim that min and max are only ever
taken over records of a single radius label. -/
theorem c1_counterexample :
    all_metrics cEx qEx aEx = some msEx
    ∧ s1 ∈ compute_scores msEx
    ∧ s1.raw.radius_km = 3
    ∧ scoreOf s1 Metric.buildings = some 0
    ∧ subScore (msEx.filter (fun r => decide (r.radius_km = 3))) s1.raw Metric.buildings = none
    ∧ some (0 : ℚ) ≠ (none : Option ℚ) := by
  refine ⟨eval_all_metrics, ?_, rfl, rfl, ?_, by simp⟩
  · rw [eval_scores_msEx]; simp
  · norm_num [subScore, normVal, colMin, colMax, getMetric, msEx, s1, List.min?, List.max?,
      min_def, max_def, List.filter_cons, List.filter_nil,
      List.filterMap_cons, List.filterMap_nil, List.foldl_cons, List.foldl_nil]

/-- C1 amended: the scorer run on the pipeline table normalizes every metric
with min and max taken over the WHOLE concatenated table, which contains
exactly clinics.length records of each of the radius labels 3, 5 and 6 — so
min-max normalization is computed across rows with different radius labels
whenever the clinic list is nonempty. -/
theorem c1_theorem (clinics : List Clinic) (qf : Clinic → Nat → QueryResults)
    (af : Clinic → Nat → ℚ) (ms : List Row)
    (h : all_metrics clinics qf af = some ms) :
    (∀ s ∈ compute_scores ms, ∀ m, scoreOf s m = subScore ms s.raw m)
    ∧ ms.countP (fun r => decide (r.radius_km = 3)) = clinics.length
    ∧ ms.countP (fun r => decide (r.radius_km = 5)) = clinics.length
    ∧ ms.countP (fun r => decide (r.radius_km = 6)) = clinics.length := by
  refine ⟨?_, ?_⟩
  · intro s hs m
    obtain ⟨r, hr, rfl⟩ := List.mem_map.mp hs
    exact scoreOf_mkScored ms _ r m
  · unfold all_metrics at h
    cases h3 : extract_osm_metrics clinics 3 qf af with
    | none => rw [h3] at h; simp at h
    | some l3 =>
      cases h5 : extract_osm_metrics clinics 5 qf af with
      | none => rw [h3, h5] at h; simp at h
      | some l5 =>
        cases h6 : extract_osm_metrics clinics 6 qf af with
        | none => rw [h3, h5, h6] at h; simp at h
        | some l6 =>
          rw [h3, h5, h6] at h
          obtain rfl : l3 ++ l5 ++ l6 = ms := Option.some_injective _ h
          obtain ⟨len3, lab3⟩ := extract_labels qf af 3 clinics l3 h3
          obtain ⟨len5, lab5⟩ := extract_labels qf af 5 clinics l5 h5
          obtain ⟨len6, lab6⟩ := extract_labels qf af 6 clinics l6 h6
          have z35 : l5.countP (fun r => decide (r.radius_km = 3)) = 0 :=
            List.countP_eq_zero.mpr (fun r hr => by simp [lab5 r hr])
          have z36 : l6.countP (fun r => decide (r.radius_km = 3)) = 0 :=
            List.countP_eq_zero.mpr (fun r hr => by simp [lab6 r hr])
          have z53 : l3.countP (fun r => decide (r.radius_km = 5)) = 0 :=
            List.countP_eq_zero.mpr (fun r hr => by simp [lab3 r hr])
          have z56 : l6.countP (fun r => decide (r.radius_km = 5)) = 0 :=
            List.countP_eq_zero.mpr (fun r hr => by simp [lab6 r hr])
          have z63 : l3.countP (fun r => decide (r.radius_km = 6)) = 0 :=
            List.countP_eq_zero.mpr (fun r hr => by simp [lab3 r hr])
          have z65 : l5.countP (fun r => decide (r.radius_km = 6)) = 0 :=
            List.countP_eq_zero.mpr (fun r hr => by simp [lab5 r hr])
          have f3 : l3.countP (fun r => decide (r.radius_km = 3)) = l3.length :=
            List.countP_eq_length.mpr (fun r hr => by simp [lab3 r hr])
          have f5 : l5.countP (fun r => decide (r.radius_km = 5)) = l5.length :=
            List.countP_eq_length.mpr (fun r hr => by simp [lab5 r hr])
          have f6 : l6.countP (fun r => decide (r.radius_km = 6)) = l6.length :=
            List.countP_eq_length.mpr (fun r hr => by simp [lab6 r hr])
          refine ⟨?_, ?_, ?_⟩ <;>
            simp [List.countP_append, z35, z36, z53, z56, z63, z65, f3, f5, f6,
              len3, len5, len6]

/-- C1 witness: on the concrete single-clinic input, the record set fed to
the scorer holds one record of each radius label 3, 5 and 6. -/
theorem c1_witness :
    msEx.countP (fun r => decide (r.radius_km = 3)) = cEx.length
    ∧ msEx.countP (fun r => decide (r.radius_km = 5)) = cEx.length
    ∧ msEx.countP (fun r => decide (r.radius_km = 6)) = cEx.length :=
  (c1_theorem cEx qEx aEx msEx eval_all_metrics).2

/-- C2 counterexample: on a table of two identical rows every metric column
has max = min, and the scorer produces a NaN (none) sub-score for the
buildings column, not 0, refuting the claim that the normalized value is
exactly 0 in the degenerate case. -/
theorem c2_counterexample :
    colMax rows2 Metric.buildings = colMin rows2 Metric.buildings
    ∧ s2 ∈ compute_scores rows2
    ∧ scoreOf s2 Metric.buildings = none
    ∧ (none : Option ℚ) ≠ some 0 := by
  refine ⟨?_, ?_, rfl, by simp⟩
  · norm_num [colMin, colMax, getMetric, rows2, rA, List.min?, List.max?,
      List.filterMap_cons, List.filterMap_nil, List.foldl_cons, List.foldl_nil,
      min_def, max_def]
  · rw [eval_scores_rows2]; simp

/-- C2 amended: when a metric column has max = min, pandas computes 0/0 for
every row, so the sub-score of that metric is NaN (none) for every record;
the NaN is then skipped by the row-wise skipna sum, so the metric contributes
nothing to total_score (which equals the sum over the remaining metrics). -/
theorem c2_theorem (rows : List Row) (m : Metric)
    (hdeg : colMax rows m = colMin rows m) (s : ScoredRow)
    (hs : s ∈ compute_scores rows) :
    scoreOf s m = none
    ∧ s.total_score
      = ((metricList.filter (fun x => decide (x ≠ m))).filterMap (subScore rows s.raw)).sum := by
  obtain ⟨r, hr, rfl⟩ := List.mem_map.mp hs
  have hnone : subScore rows r m = none := subScore_degenerate rows m hdeg r
  constructor
  · rw [scoreOf_mkScored]; exact hnone
  · show totalScore rows r
      = ((metricList.filter (fun x => decide (x ≠ m))).filterMap (subScore rows r)).sum
    rw [filterMap_filter_ne (subScore rows r) m hnone metricList]
    rfl

/-- C2 witness: instantiating the amended theorem on the two-row duplicate
table at the buildings column. -/
theorem c2_witness :
    scoreOf s2 Metric.buildings = none
    ∧ s2.total_score
      = ((metricList.filter (fun x => decide (x ≠ Metric.buildings))).filterMap
          (subScore rows2 s2.raw)).sum :=
  c2_theorem rows2 Metric.buildings
    (by norm_num [colMin, colMax, getMetric, rows2, rA, List.min?, List.max?,
      List.filterMap_cons, List.filterMap_nil, List.foldl_cons, List.foldl_nil,
      min_def, max_def])
    s2 (by rw [eval_scores_rows2]; simp)

/-- C3 counterexample: at the negative area -1 km² the extractor loop body
happily produces a record whose road_density is the quotient -1, not null,
refuting the claim that road_density is null whenever area_km2 ≤ 0. -/
theorem c3_counterexample :
    mkRecord "c" 3 q0 (-1) = some rowNeg
    ∧ ((-1 : ℚ) ≤ 0)
    ∧ rowNeg.road_density = some (-1)
    ∧ some (-1 : ℚ) ≠ (none : Option ℚ) := by
  refine ⟨?_, by norm_num, rfl, by simp⟩
  norm_num [mkRecord, recordRaw, q0, rowNeg]

/-- C3 amended: the extractor computes road_density unconditionally as
road_length_km / area_km2: there is no null branch.  When area_km2 = 0 the
Python float division raises ZeroDivisionError and no record is produced;
for every nonzero area (including negative ones) the stored road_density is
exactly the quotient. -/
theorem c3_theorem (nm : String) (km : Nat) (q : QueryResults) (a : ℚ) :
    (mkRecord nm km q a).map (fun r => r.road_density)
      = if a = 0 then none else some (some (q.roadLengthsM.sum / 1000 / a)) := by
  by_cases ha : a = 0 <;> simp [mkRecord, recordRaw, ha]

/-- C4 counterexample: on the two-row table with exactly tied total scores,
pandas rank (the src line 74 call) gives both rows rank 3/2, whereas standard
competition ranking would give both rows rank 1 (and the best row rank 1);
3/2 ≠ 1 refutes the claim. -/
theorem c4_counterexample :
    s2 ∈ compute_scores rows2
    ∧ s2.rank = 3 / 2
    ∧ 1 + (((rows2.map (totalScore rows2)).countP
        (fun t => decide (s2.total_score < t)) : ℕ) : ℚ) = 1
    ∧ ((3 / 2 : ℚ) ≠ 1) := by
  refine ⟨by rw [eval_scores_rows2]; simp, rfl, ?_, by norm_num⟩
  norm_num [rows2, rA, s2, totalScore, metricList, subScore, normVal, colMin, colMax,
    getMetric, weight, List.min?, List.max?, min_def, max_def,
    List.filterMap_cons, List.filterMap_nil, List.foldl_cons, List.foldl_nil,
    List.map_cons, List.map_nil, List.countP_cons, List.countP_nil,
    List.sum_cons, List.sum_nil]

/-- C4 amended: the rank column is the pandas default average rank in
descending order: each record's rank is the number of strictly greater totals
plus (1 + number of equal totals) / 2.  On records whose total is untied this
coincides with competition ranking (1 + number of strictly greater totals),
but tied records receive the fractional average of their positions, not the
shared competition rank. -/
theorem c4_theorem (rows : List Row) (s : ScoredRow) (hs : s ∈ compute_scores rows) :
    s.rank = (((rows.map (totalScore rows)).countP
        (fun t => decide (s.total_score < t)) : ℕ) : ℚ)
      + (1 + (((rows.map (totalScore rows)).countP
          (fun t => decide (t = s.total_score)) : ℕ) : ℚ)) / 2
    ∧ ((rows.map (totalScore rows)).countP (fun t => decide (t = s.total_score)) = 1 →
        s.rank = 1 + (((rows.map (totalScore rows)).countP
          (fun t => decide (s.total_score < t)) : ℕ) : ℚ)) := by
  obtain ⟨r, hr, rfl⟩ := List.mem_map.mp hs
  have hts : (mkScored rows (rows.map (totalScore rows)) r).total_score
      = totalScore rows r := rfl
  have hrk : (mkScored rows (rows.map (totalScore rows)) r).rank
      = rankOf (rows.map (totalScore rows)) (totalScore rows r) := rfl
  simp only [hts, hrk]
  refine ⟨rfl, ?_⟩
  intro h1
  unfold rankOf
  rw [h1]
  push_cast
  ring

/-- C4 witness: instantiating the amended rank formula on the tied two-row
table. -/
theorem c4_witness :
    s2.rank = (((rows2.map (totalScore rows2)).countP
        (fun t => decide (s2.total_score < t)) : ℕ) : ℚ)
      + (1 + (((rows2.map (totalScore rows2)).countP
          (fun t => decide (t = s2.total_score)) : ℕ) : ℚ)) / 2 :=
  (c4_theorem rows2 s2 (by rw [eval_scores_rows2]; simp)).1

/-- C5 counterexample: the polygon whose area src line 52 takes is the
buffer AFTER a round trip through the geographic frame (EPSG:4326), not the
stored projected buffer: its history contains a reprojection to geographic
coordinates, refuting the claim that the area is never computed from the
polygon after it has been reprojected to geographic coordinates. -/
theorem c5_counterexample :
    areaArg cl0 3000
      = GeomExpr.to_crs CRS.epsg3857 (GeomExpr.to_crs CRS.epsg4326 (bufferGeom cl0 3000))
    ∧ reprojectedToGeographic (areaArg cl0 3000) = true
    ∧ reprojectedToGeographic (bufferGeom cl0 3000) = false
    ∧ (true ≠ false) := by
  exact ⟨rfl, rfl, rfl, by simp⟩

/-- C5 amended: area arithmetic does happen in the projected frame
(EPSG:3857) and every feature query is issued in the geographic frame
(EPSG:4326), but the polygon whose area is taken is the stored projected
buffer round-tripped through EPSG:4326 and back to EPSG:3857, not the stored
projected buffer itself. -/
theorem c5_theorem (c : Clinic) (m : ℚ) :
    frameOf (areaArg c m) = CRS.epsg3857
    ∧ areaArg c m
      = GeomExpr.to_crs CRS.epsg3857 (GeomExpr.to_crs CRS.epsg4326 (bufferGeom c m))
    ∧ frameOf (queryPoly c m) = CRS.epsg4326
    ∧ frameOf (bufferGeom c m) = CRS.epsg3857 :=
  ⟨rfl, rfl, rfl, rfl⟩

/-- C6 counterexample: load_clinics performs no coordinate validation: a
clinic with latitude 200 (far outside [-90, 90]) is kept and buffered, while
the claimed behavior would have filtered it out of the returned mapping. -/
theorem c6_counterexample :
    (load_clinics [badClinic]).map Prod.fst = [badClinic]
    ∧ [badClinic].filter
        (fun r => decide (-90 ≤ r.lat ∧ r.lat ≤ 90 ∧ -180 ≤ r.long ∧ r.long ≤ 180))
      = ([] : List Clinic)
    ∧ ([badClinic] : List Clinic) ≠ [] := by
  refine ⟨by norm_num [load_clinics], ?_, by simp⟩
  rw [List.filter_cons, if_neg (by norm_num [badClinic]), List.filter_nil]

/-- C6 amended: every input row is retained: load_clinics maps each CSV row,
valid or not, to an entry of the returned list; there is no InvalidLocation
rejection path anywhere in the source. -/
theorem c6_theorem (rows : List Clinic) : (load_clinics rows).map Prod.fst = rows := by
  induction rows with
  | nil => rfl
  | cons r t ih => simp only [load_clinics, List.map_cons] at ih ⊢; rw [ih]

/-- C7 confirmed: when every queried area is nonzero (the geometric case:
buffers of positive radius have positive area), the table handed to the
scorer has exactly one record per (clinic, radius) pair, grouped by radius in
the order 3, 5, 6 and, inside each radius group, in input clinic order; every
record carries its group's radius label and its clinic's name. -/
theorem c7_theorem (clinics : List Clinic) (qf : Clinic → Nat → QueryResults)
    (af : Clinic → Nat → ℚ) (h : ∀ c k, af c k ≠ 0) :
    all_metrics clinics qf af
      = some (clinics.map (recordOf qf af 3) ++ clinics.map (recordOf qf af 5)
          ++ clinics.map (recordOf qf af 6))
    ∧ (∀ k c, (recordOf qf af k c).radius_km = k ∧ (recordOf qf af k c).clinic = c.name) := by
  constructor
  · unfold all_metrics
    rw [extract_eq qf af h 3 clinics, extract_eq qf af h 5 clinics,
      extract_eq qf af h 6 clinics]
  · intro k c
    exact ⟨rfl, rfl⟩

/-- C7 witness: the concrete single-clinic pipeline produces its three
records grouped by radius 3, 5, 6 in clinic input order. -/
theorem c7_witness :
    all_metrics cEx qEx aEx
      = some (cEx.map (recordOf qEx aEx 3) ++ cEx.map (recordOf qEx aEx 5)
          ++ cEx.map (recordOf qEx aEx 6)) :=
  (c7_theorem cEx qEx aEx (fun _ _ => one_ne_zero)).1

/-- C8 confirmed: for the modelled geometry backend (buffer area = c · r²
with any positive shape coefficient c, covering the ideal disk and shapely's
polygonal approximation), the area_km2 of src line 52 is strictly increasing
in the radius label: a larger radius around the same center yields a strictly
larger area. -/
theorem c8_theorem (c : ℚ) (hc : 0 < c) (k1 k2 : Nat) (hk : k1 < k2) :
    area_km2_model c k1 < area_km2_model c k2 := by
  have h1 : (k1 : ℚ) < (k2 : ℚ) := by exact_mod_cast hk
  have h0 : (0 : ℚ) ≤ (k1 : ℚ) := Nat.cast_nonneg k1
  have hsq : (k1 : ℚ) * k1 < (k2 : ℚ) * k2 := mul_self_lt_mul_self h0 h1
  have key : ∀ x : ℚ, bufferAreaM2 c (1000 * x) / 1000000 = c * (x * x) := by
    intro x; unfold bufferAreaM2; ring
  unfold area_km2_model
  rw [key, key]
  exact mul_lt_mul_of_pos_left hsq hc

/-- C8 witness: with shape coefficient 22/7 the modelled area at radius label
3 is strictly below the area at radius label 5. -/
theorem c8_witness :
    (0 : ℚ) < 22 / 7 ∧ (3 : Nat) < 5
    ∧ area_km2_model (22 / 7) 3 < area_km2_model (22 / 7) 5 :=
  ⟨by norm_num, by norm_num, c8_theorem (22 / 7) (by norm_num) 3 5 (by norm_num)⟩

/-- C9 confirmed: scoring is idempotent on raw metrics: stripping the
computed columns from the scorer's output (keeping the raw metric columns)
and scoring again reproduces the identical scored table — in particular
identical sub-scores and total scores. -/
theorem c9_theorem (rows : List Row) :
    compute_scores ((compute_scores rows).map (fun s => s.raw)) = compute_scores rows := by
  rw [compute_scores_map_raw]

/-- C10 confirmed: the scorer does not disturb its input columns: every
output row carries its input row unchanged (same order, same values), the
output has one row per input row, and by construction of ScoredRow the only
added fields are the five per-metric sub-scores, total_score and rank. -/
theorem c10_theorem (rows : List Row) :
    (compute_scores rows).map (fun s => s.raw) = rows
    ∧ (compute_scores rows).length = rows.length := by
  refine ⟨compute_scores_map_raw rows, ?_⟩
  have h := congrArg List.length (compute_scores_map_raw rows)
  simpa using h
